import Mathlib

/-
Shallow embedding of the disease-prediction Streamlit app
(src/backend/routes/app.py) and proofs about its behaviour.

Conventions of the embedding:
* Python strings are Lean `String`; probability arrays are `List ℚ`
  (the claims only compare probabilities against the exact constant 0.05
  and ask for ordering, which is insensitive to the float/rational gap).
* Fallible Python calls are `Except String` values; the classifier is an
  abstract record of (possibly failing) `predict` / `predict_proba`
  functions plus its ordered class-label list, mirroring the opaque
  scikit-learn object.
* `df.loc[0, symptoms] = 1` on a modern pandas raises `KeyError` when
  `symptoms` contains a label missing from the columns (list indexers do
  not enlarge on assignment); `one_hot` embeds that behaviour.
* `np.argsort` is embedded as a stable ascending insertion sort on
  indices. numpy's default quicksort runs a plain insertion sort on
  arrays within its small-array cutoff (length at most 16), where the
  embedding matches it exactly; above the cutoff numpy's tie order is
  unspecified, so every theorem that speaks about tie order carries the
  hypothesis that the distribution is within that cutoff. The
  order-insensitive facts (ascending values, permutation of indices)
  hold for every argsort kind and are the only ones used without the
  bound.
-/

namespace HealthcareSearch

/-- One-hot encoder, from `one_hot(symptoms, all_feats)`:
builds a zero row over the feature columns and assigns 1 at the selected
labels; a selected label absent from the columns raises `KeyError`. -/
def one_hot (symptoms : List String) (all_feats : List String) :
    Except String (List Nat) :=
  match symptoms.find? (fun s => !(all_feats.contains s)) with
  | some s => Except.error ("KeyError: not in index: " ++ s)
  | none => Except.ok (all_feats.map (fun f => if symptoms.contains f then 1 else 0))

/-- One row of the disease→specialty mapping: the three columns kept by
`load_model_features_mapping` (missing cells already filled with ""). -/
structure SpecialtyInfo where
  Specialization : String
  Classification : String
  TaxonomyCode : String
deriving DecidableEq

/-- The mapping `disease_to_specialty`: a Python dict keyed by disease
name, embedded as an association list (dict keys are unique, lookup is
the first hit). -/
def SpecialtyMapping := List (String × SpecialtyInfo)

/-- Python `str.lower()` (ASCII range, which covers the disease labels). -/
def pyLower (s : String) : String := String.mk (s.data.map Char.toLower)

/-- Python `a or b` on strings: `a` when truthy (non-empty), else `b`. -/
def orStr (a b : String) : String := if a = "" then b else a

/-- The lookup `disease_to_specialty.get(y_pred.lower()) or
disease_to_specialty.get(y_pred)` (a hit is a non-empty dict, hence
always truthy). -/
def getInfo (mapping : SpecialtyMapping) (label : String) : Option SpecialtyInfo :=
  (mapping.lookup (pyLower label)).orElse (fun _ => mapping.lookup label)

/-- `info.get("Specialization") or info.get("Classification") or ""`. -/
def specOf (info : SpecialtyInfo) : String :=
  orStr (orStr info.Specialization info.Classification) ""

/-- `info.get("Taxonomy Code") or ""`. -/
def taxOf (info : SpecialtyInfo) : String :=
  orStr info.TaxonomyCode ""

/-- Specialty resolution for a predicted label: the (specialty, taxonomy
code) pair stored by the predict handler when the lookup hits. -/
def resolveSpecialty (mapping : SpecialtyMapping) (label : String) :
    Option (String × String) :=
  (getInfo mapping label).map (fun info => (specOf info, taxOf info))

/-- The opaque trained classifier: `predict` and the optional
`predict_proba` may raise; `classes_` is the native ordered label list. -/
structure Model where
  predict : List Nat → Except String String
  predict_proba : Option (List Nat → Except String (List ℚ))
  classes_ : List String

/-- Insert index `i` into an index list that is already sorted ascending
by probability, after all entries of equal probability (the stable
placement an insertion sort produces). -/
def insertSorted (probs : List ℚ) (i : Nat) : List Nat → List Nat
  | [] => [i]
  | j :: rest =>
    if probs.getD i 0 < probs.getD j 0 then i :: j :: rest
    else j :: insertSorted probs i rest

/-- `np.argsort(probs)`: indices of `probs` sorted ascending by value.
The embedding fixes ties to the native index order, which is numpy's
actual behaviour for arrays within the small-array insertion-sort
cutoff (length at most 16); for longer arrays the default quicksort
leaves the tie order unspecified, so theorems assert tie order only
under that length bound (see the header note). -/
def argsort (probs : List ℚ) : List Nat :=
  (List.range probs.length).foldl (fun acc i => insertSorted probs i acc) []

/-- `np.argsort(probs)[-3:][::-1]`: the (up to) three highest indices,
highest first. -/
def top_idx (probs : List ℚ) : List Nat :=
  ((argsort probs).drop ((argsort probs).length - 3)).reverse

/-- The `continue`-guard of the rendering loop: keep index `i` unless
`probs[i] < 0.05`. -/
def keep (probs : List ℚ) (i : Nat) : Bool :=
  !(decide (probs.getD i 0 < (0.05 : ℚ)))

/-- The "Other possibilities" list the app renders: walk `top_idx`, skip
entries below 0.05, show `classes_[i]` with `probs[i]`. -/
def otherPossibilities (m : Model) (probs : List ℚ) : List (String × ℚ) :=
  ((top_idx probs).filter (keep probs)).map
    (fun i => (m.classes_.getD i "", probs.getD i 0))

/-- The `prediction_probs` session entry: the raw distribution plus the
stored `top_idx`. -/
structure PredProbs where
  probs : List ℚ
  tops : List Nat
deriving DecidableEq

/-- The five session-state fields initialised at the top of the main
layout. -/
structure SessionState where
  last_prediction : Option String
  recommended_specialty : Option String
  taxonomy_code : Option String
  prediction_probs : Option PredProbs
  show_providers : Bool
deriving DecidableEq

/-- Specialty step of the predict handler: on a mapping hit overwrite
the two specialty fields, otherwise leave the state as is. -/
def applySpecialty (mapping : SpecialtyMapping) (y_pred : String)
    (s : SessionState) : SessionState :=
  match getInfo mapping y_pred with
  | some info =>
    { s with recommended_specialty := some (specOf info),
             taxonomy_code := some (taxOf info) }
  | none => s

/-- The body of the predict handler's `try` block: encode, predict,
store `last_prediction` and reset `show_providers`, store probabilities
when supported, then resolve the specialty. The second component is the
error message shown by the `except` clause (`none` on success); the
first is the session state at the point the handler finished or the
exception escaped to the handler boundary. -/
def predictAction (m : Model) (mapping : SpecialtyMapping)
    (selected : List String) (all_feats : List String)
    (s : SessionState) : SessionState × Option String :=
  match one_hot selected all_feats with
  | Except.error e => (s, some ("Prediction failed: " ++ e))
  | Except.ok X =>
    match m.predict X with
    | Except.error e => (s, some ("Prediction failed: " ++ e))
    | Except.ok y_pred =>
      let s1 := { s with last_prediction := some y_pred, show_providers := false }
      match m.predict_proba with
      | some pp =>
        match pp X with
        | Except.error e => (s1, some ("Prediction failed: " ++ e))
        | Except.ok probs =>
          let s2 := { s1 with prediction_probs := some ⟨probs, top_idx probs⟩ }
          (applySpecialty mapping y_pred s2, none)
      | none => (applySpecialty mapping y_pred s1, none)

/-- The guard `if predict_btn and selected_symptoms:` around the predict
handler: with no symptom selected the click is a no-op. -/
def predictClick (m : Model) (mapping : SpecialtyMapping)
    (selected : List String) (all_feats : List String)
    (s : SessionState) : SessionState × Option String :=
  if selected.isEmpty then (s, none)
  else predictAction m mapping selected all_feats s

/-- The `basic` sub-object of an NPPES provider record (the name fields
the renderer reads). -/
structure BasicInfo where
  first_name : Option String
  last_name : Option String
  organization_name : Option String
deriving DecidableEq

/-- One entry of a provider's `addresses` array. -/
structure Address where
  address_purpose : Option String
  address_1 : Option String
  address_2 : Option String
  city : Option String
  state : Option String
  postal_code : Option String
  telephone_number : Option String
deriving DecidableEq

/-- One entry of a provider's `taxonomies` array. -/
structure Taxonomy where
  primary : Option Bool
  desc : Option String
deriving DecidableEq

/-- An NPPES provider record, restricted to the keys the renderer reads;
absent keys are `none`. -/
structure Provider where
  enumeration_type : Option String
  basic : Option BasicInfo
  addresses : List Address
  taxonomies : List Taxonomy
deriving DecidableEq

/-- The JSON dictionary shapes flowing through `fetch_providers_by_specialty`
and `render_provider_results`, restricted to the keys those functions
read; an absent key is `none`. -/
structure RespDict where
  error : Option String
  results : Option (List Provider)
  result_count : Option Nat
deriving DecidableEq

/-- The error dictionaries `fetch_providers_by_specialty` constructs:
a single `error` key. -/
def errorDict (reason : String) : RespDict :=
  { error := some reason, results := none, result_count := none }

/-- What `requests.get` produced: an HTTP response (status plus decoded
JSON body) or a raised transport exception with its message. -/
inductive HttpOutcome where
  | response (status : Nat) (body : RespDict)
  | exc (msg : String)

/-- `fetch_providers_by_specialty`, abstracted over the network outcome:
200 passes the JSON body through, any other status or an exception
becomes an error dictionary (a returned value, never a raised one). -/
def fetch_providers_by_specialty (outcome : HttpOutcome) : RespDict :=
  match outcome with
  | HttpOutcome.response status body =>
    if status = 200 then body
    else errorDict ("API request failed with status code " ++ toString status)
  | HttpOutcome.exc e => errorDict e

/-- Display name computed for a provider card: `NPI-1` records use
`first_name last_name` (missing parts default to ""), all other records
use `organization_name` defaulting to "Unknown Provider". -/
def displayName (p : Provider) : String :=
  let b := p.basic.getD { first_name := none, last_name := none, organization_name := none }
  if p.enumeration_type = some "NPI-1" then
    b.first_name.getD "" ++ " " ++ b.last_name.getD ""
  else
    b.organization_name.getD "Unknown Provider"

/-- One rendered provider card: name, optional (street line, city line)
address, optional phone, optional taxonomy description. -/
structure ProviderCard where
  name : String
  address : Option (String × String)
  phone : Option String
  taxonomy_desc : Option String
deriving DecidableEq

/-- Card construction inside the rendering loop: first `LOCATION`
address, first taxonomy flagged `primary=True`, Python truthiness on the
optional second street line and phone number. -/
def renderCard (p : Provider) : ProviderCard :=
  let loc := p.addresses.find? (fun a => decide (a.address_purpose = some "LOCATION"))
  let ptax := p.taxonomies.find? (fun t => decide (t.primary = some true))
  { name := displayName p
    address := loc.map (fun a =>
      (a.address_1.getD "" ++
        (match a.address_2 with
         | some s => if s = "" then "" else ", " ++ s
         | none => ""),
       a.city.getD "" ++ ", " ++ a.state.getD "" ++ " " ++ a.postal_code.getD ""))
    phone := loc.bind (fun a =>
      match a.telephone_number with
      | some s => if s = "" then none else some s
      | none => none)
    taxonomy_desc := ptax.map (fun t => t.desc.getD "") }

/-- The four distinct outcomes of `render_provider_results`: the generic
"No provider results found." warning, the error banner with the reason,
the "No providers found..." notice, or the rendered list. -/
inductive RenderOutcome where
  | warnNoResults
  | errorMsg (reason : String)
  | infoNoProviders
  | providerList (count : Nat) (cards : List ProviderCard)
deriving DecidableEq

/-- Python truthiness of the results dictionary (`not results`): an
empty dict — in this restricted shape, all keys absent. -/
def isFalsyDict (d : RespDict) : Bool :=
  decide (d.error = none) && decide (d.results = none) && decide (d.result_count = none)

/-- `render_provider_results`, keeping the source's guard order: the
missing-`results`-key warning first, then the `error`-key banner, then
the zero-count notice, then the card list. -/
def render_provider_results (results : RespDict) : RenderOutcome :=
  if isFalsyDict results || decide (results.results = none) then
    RenderOutcome.warnNoResults
  else
    match results.error with
    | some e => RenderOutcome.errorMsg ("Error fetching providers: " ++ e)
    | none =>
      let providers := results.results.getD []
      let cnt := results.result_count.getD 0
      if cnt = 0 then RenderOutcome.infoNoProviders
      else RenderOutcome.providerList cnt (providers.map renderCard)

/-- Modelled from the claim wording of the specialty-resolution rule,
for refinement comparison with `resolveSpecialty`: the recommended
specialty is the Specialization field, falling back to the
Classification field when Specialization is empty, and the taxonomy
code comes from the Taxonomy Code field. -/
def claimFields (info : SpecialtyInfo) : String × String :=
  ((if info.Specialization = "" then info.Classification else info.Specialization),
   info.TaxonomyCode)

/-- Modelled from the claim wording: look the label up by its lowercase
form first and by the original-cased label second, then read the fields
as `claimFields` does. -/
def resolveSpecialtyClaim (mapping : SpecialtyMapping) (label : String) :
    Option (String × String) :=
  match mapping.lookup (pyLower label) with
  | some info => some (claimFields info)
  | none => (mapping.lookup label).map claimFields

/-- The strict order the stable argsort realises on indices: ascending
probability, ties broken by ascending native index. -/
def ordA (probs : List ℚ) (i j : Nat) : Prop :=
  probs.getD i 0 < probs.getD j 0 ∨ (probs.getD i 0 = probs.getD j 0 ∧ i < j)

/-- A classifier whose `predict` succeeds but whose `predict_proba`
raises; used to exercise the error boundary of the predict handler. -/
def mC1 : Model :=
  { predict := fun _ => Except.ok "A",
    predict_proba := some (fun _ => Except.error "boom"),
    classes_ := ["A"] }

/-- A session state populated by an earlier prediction. -/
def sC1 : SessionState :=
  { last_prediction := some "B", recommended_specialty := some "S",
    taxonomy_code := some "T", prediction_probs := none, show_providers := true }

/-- The state `predictAction` leaves behind when `predict_proba` raises
after `predict` returned "A": the first two writes already happened. -/
def rC1 : SessionState :=
  { last_prediction := some "A", recommended_specialty := some "S",
    taxonomy_code := some "T", prediction_probs := none, show_providers := false }

/-- A classifier that deterministically predicts "A" with certainty. -/
def mC4 : Model :=
  { predict := fun _ => Except.ok "A",
    predict_proba := some (fun _ => Except.ok [1]),
    classes_ := ["A"] }

/-- A one-row mapping resolving label "A" (via its lowercase form). -/
def mapC4 : SpecialtyMapping :=
  [("a", { Specialization := "Spec", Classification := "Cl", TaxonomyCode := "T1" })]

/-- A session state populated by an earlier prediction. -/
def sC4 : SessionState :=
  { last_prediction := some "Old", recommended_specialty := some "OldS",
    taxonomy_code := some "OldT", prediction_probs := none, show_providers := true }

/-- The state after a successful new prediction over `mapC4`. -/
def rC4 : SessionState :=
  { last_prediction := some "A", recommended_specialty := some "Spec",
    taxonomy_code := some "T1",
    prediction_probs := some { probs := [1], tops := [0] },
    show_providers := false }

/-- A session state holding specialty fields from an earlier prediction,
used against an empty mapping. -/
def sC4x : SessionState :=
  { last_prediction := some "Old", recommended_specialty := some "OldSpec",
    taxonomy_code := some "OldTax", prediction_probs := none, show_providers := true }

/-- A probability distribution with a tie between the first two classes. -/
def probsC3 : List ℚ := [1/2, 1/2, 0]

/-- A three-class classifier used with `probsC3`. -/
def mC3 : Model :=
  { predict := fun _ => Except.ok "A", predict_proba := none,
    classes_ := ["A", "B", "C"] }

lemma orStr_empty_right (a : String) : orStr a "" = a := by
  unfold orStr; split <;> simp_all

lemma specOf_eq (info : SpecialtyInfo) :
    specOf info
      = if info.Specialization = "" then info.Classification else info.Specialization :=
  orStr_empty_right _

lemma taxOf_eq (info : SpecialtyInfo) : taxOf info = info.TaxonomyCode :=
  orStr_empty_right _

/-- Claim C2: for every selected-symptom set containing an identifier
not in the feature list, the encoder does NOT return normally: pandas
`.loc` assignment with a list indexer containing a missing column label
raises `KeyError`, so the unknown identifier produces an error rather
than being silently ignored (amended claim). -/
theorem one_hot_unknown_raises (symptoms all_feats : List String)
    (h : ∃ s ∈ symptoms, s ∉ all_feats) :
    ∃ msg, one_hot symptoms all_feats = Except.error msg := by
  have hsome : (symptoms.find? (fun s => !(all_feats.contains s))).isSome := by
    rw [List.find?_isSome]
    obtain ⟨s, hs, hns⟩ := h
    exact ⟨s, hs, by simpa using hns⟩
  obtain ⟨s, hs⟩ := Option.isSome_iff_exists.mp hsome
  exact ⟨"KeyError: not in index: " ++ s, by rw [one_hot, hs]⟩

/-- Witness for the amended C2 claim at a concrete input. -/
theorem one_hot_unknown_raises_witness :
    ∃ msg, one_hot ["fever", "zzz"] ["fever", "cough"] = Except.error msg :=
  one_hot_unknown_raises ["fever", "zzz"] ["fever", "cough"]
    ⟨"zzz", by decide, by decide⟩

/-- Counterexample to claim C2 as stated: with the unknown identifier
"zzz" selected, the encoder raises instead of returning normally. -/
theorem one_hot_unknown_counterexample :
    one_hot ["fever", "zzz"] ["fever", "cough"]
      = Except.error "KeyError: not in index: zzz" := rfl

/-- Claim C5: for every symptom subset S of the feature list the
encoder succeeds; the vector has the feature-list length, each position
is 1 iff that feature is in S, and the vector has exactly the size of
the intersection of S with the feature list many ones. -/
theorem one_hot_subset_encoding (S feats : List String)
    (hsub : ∀ s ∈ S, s ∈ feats) (hS : S.Nodup) (hF : feats.Nodup) :
    ∃ v, one_hot S feats = Except.ok v
      ∧ v.length = feats.length
      ∧ (∀ i (hi : i < feats.length), v[i]? = some (if feats[i] ∈ S then 1 else 0))
      ∧ v.count 1 = (S.inter feats).length := by
  refine ⟨feats.map (fun f => if S.contains f then 1 else 0), ?_, by simp, ?_, ?_⟩
  · have hnone : S.find? (fun s => !(feats.contains s)) = none := by
      rw [List.find?_eq_none]
      intro s hs
      simpa using hsub s hs
    rw [one_hot, hnone]
  · intro i hi
    rw [List.getElem?_map, List.getElem?_eq_getElem hi]
    simp only [Option.map_some']
    congr 1
    by_cases hm : feats[i] ∈ S
    · simp [hm]
    · simp [hm]
  · have h1 : (feats.map (fun f => if S.contains f then 1 else 0)).count 1
        = (feats.filter (fun f => S.contains f)).length := by
      rw [List.count, List.countP_map, List.countP_eq_length_filter]
      congr 1
      apply List.filter_congr
      intro a _
      by_cases hm : a ∈ S
      · simp [hm]
      · simp [hm]
    have h2 : (feats.filter (fun f => S.contains f)).toFinset = S.toFinset := by
      ext a
      simp only [List.mem_toFinset, List.mem_filter]
      constructor
      · exact fun h => List.elem_iff.mp h.2
      · exact fun h => ⟨hsub a h, List.elem_iff.mpr h⟩
    have h3 : (feats.filter (fun f => S.contains f)).length = S.length := by
      rw [← List.toFinset_card_of_nodup (hF.filter _),
        ← List.toFinset_card_of_nodup hS, h2]
    have h4 : S.inter feats = S := by
      simp only [List.inter]
      rw [List.filter_eq_self]
      intro a ha
      simpa using hsub a ha
    rw [h1, h3, h4]

/-- Witness for C5 at a concrete subset of a concrete feature list. -/
theorem one_hot_subset_encoding_witness :
    ∃ v, one_hot ["cough"] ["fever", "cough"] = Except.ok v
      ∧ v.length = (["fever", "cough"] : List String).length
      ∧ (∀ i (hi : i < (["fever", "cough"] : List String).length),
          v[i]? = some (if (["fever", "cough"] : List String)[i] ∈ (["cough"] : List String) then 1 else 0))
      ∧ v.count 1 = ((["cough"] : List String).inter ["fever", "cough"]).length :=
  one_hot_subset_encoding ["cough"] ["fever", "cough"]
    (by decide) (by decide) (by decide)

/-- Claim C6: specialty resolution follows the claimed
lowercase-then-exact lookup and field-fallback rule (refinement against
a definition written from the claim), resolves "Flu" to "Infectious
Disease" through a mapping keyed "flu", and resolves nothing when the
mapping is empty. -/
theorem resolveSpecialty_matches_claim :
    (∀ mapping label, resolveSpecialty mapping label = resolveSpecialtyClaim mapping label)
    ∧ (∀ c t, resolveSpecialty
        [("flu", { Specialization := "Infectious Disease", Classification := c,
                   TaxonomyCode := t })] "Flu"
        = some ("Infectious Disease", t))
    ∧ (∀ label, resolveSpecialty [] label = none) := by
  refine ⟨fun mapping label => ?_, fun c t => ?_, fun label => rfl⟩
  · rw [resolveSpecialty, resolveSpecialtyClaim, getInfo]
    cases h1 : mapping.lookup (pyLower label) with
    | some info =>
      simp [Option.orElse, claimFields, specOf_eq, taxOf_eq]
    | none =>
      cases h2 : mapping.lookup label with
      | some info => simp [Option.orElse, claimFields, specOf_eq, taxOf_eq]
      | none => simp [Option.orElse]
  · have hlook : getInfo
        [("flu", { Specialization := "Infectious Disease", Classification := c,
                   TaxonomyCode := t })] "Flu"
        = some { Specialization := "Infectious Disease", Classification := c,
                 TaxonomyCode := t } := rfl
    rw [resolveSpecialty, hlook, Option.map_some']
    rw [specOf_eq, taxOf_eq]
    simp

/-- Claim C7: a non-200 response or a transport exception yields an
explicit error dictionary (a returned value) whose reason carries the
status code respectively the exception message; a 404 response yields
an error result containing "404". -/
theorem fetch_error_results :
    (∀ status body, status ≠ 200 →
      fetch_providers_by_specialty (HttpOutcome.response status body)
        = errorDict ("API request failed with status code " ++ toString status))
    ∧ (∀ e, fetch_providers_by_specialty (HttpOutcome.exc e) = errorDict e)
    ∧ (∀ body, ∃ pre suf,
        (fetch_providers_by_specialty (HttpOutcome.response 404 body)).error
          = some (pre ++ "404" ++ suf)) := by
  refine ⟨fun status body h => ?_, fun e => rfl, fun body => ?_⟩
  · simp [fetch_providers_by_specialty, h]
  · exact ⟨"API request failed with status code ", "", rfl⟩

/-- Witness for C7 at a concrete 404 response. -/
theorem fetch_error_results_witness :
    fetch_providers_by_specialty (HttpOutcome.response 404
        { error := none, results := none, result_count := none })
      = errorDict ("API request failed with status code " ++ toString 404) :=
  fetch_error_results.1 404
    { error := none, results := none, result_count := none } (by decide)

/-- Claim C8: a 200 response carrying `result_count = 0` (a well-formed
zero-match body: `results` key present, no `error` key) renders as the
distinct "no providers found" notice, never as an error banner. -/
theorem fetch_zero_results_info (body : RespDict)
    (herr : body.error = none) (hres : body.results ≠ none)
    (hcnt : body.result_count = some 0) :
    render_provider_results (fetch_providers_by_specialty (HttpOutcome.response 200 body))
      = RenderOutcome.infoNoProviders
    ∧ ∀ reason,
        render_provider_results (fetch_providers_by_specialty (HttpOutcome.response 200 body))
          ≠ RenderOutcome.errorMsg reason := by
  obtain ⟨rs, hrs⟩ := Option.ne_none_iff_exists'.mp hres
  have heq : render_provider_results
      (fetch_providers_by_specialty (HttpOutcome.response 200 body))
      = RenderOutcome.infoNoProviders := by
    simp [fetch_providers_by_specialty, render_provider_results, isFalsyDict,
      herr, hrs, hcnt]
  exact ⟨heq, fun reason => by simp [heq]⟩

/-- Witness for C8 at a concrete empty 200 body. -/
theorem fetch_zero_results_info_witness :
    render_provider_results (fetch_providers_by_specialty (HttpOutcome.response 200
        { error := none, results := some [], result_count := some 0 }))
      = RenderOutcome.infoNoProviders
    ∧ ∀ reason,
        render_provider_results (fetch_providers_by_specialty (HttpOutcome.response 200
            { error := none, results := some [], result_count := some 0 }))
          ≠ RenderOutcome.errorMsg reason :=
  fetch_zero_results_info
    { error := none, results := some [], result_count := some 0 }
    rfl (by simp) rfl

/-- Claim C9: an individual (NPI-1) provider record with both name
parts present displays as "first last" (e.g. Jane Doe), and a
non-individual record without an organization name displays as
"Unknown Provider". -/
theorem displayName_normalization :
    (∀ (p : Provider) (b : BasicInfo) (first last : String),
      p.enumeration_type = some "NPI-1" → p.basic = some b →
      b.first_name = some first → b.last_name = some last →
      displayName p = first ++ " " ++ last)
    ∧ displayName
        { enumeration_type := some "NPI-1",
          basic := some { first_name := some "Jane", last_name := some "Doe",
                          organization_name := none },
          addresses := [], taxonomies := [] } = "Jane Doe"
    ∧ (∀ p : Provider, p.enumeration_type ≠ some "NPI-1" →
        (p.basic.getD { first_name := none, last_name := none,
                        organization_name := none }).organization_name = none →
        displayName p = "Unknown Provider") := by
  refine ⟨fun p b first last h1 h2 h3 h4 => ?_, rfl, fun p h1 h2 => ?_⟩
  · simp [displayName, h1, h2, h3, h4]
  · simp [displayName, h1, h2]

/-- Witness for C9 applying the individual-name clause at Jane Doe. -/
theorem displayName_normalization_witness :
    displayName
      { enumeration_type := some "NPI-1",
        basic := some { first_name := some "Jane", last_name := some "Doe",
                        organization_name := none },
        addresses := [], taxonomies := [] } = "Jane" ++ " " ++ "Doe" :=
  displayName_normalization.1
    { enumeration_type := some "NPI-1",
      basic := some { first_name := some "Jane", last_name := some "Doe",
                      organization_name := none },
      addresses := [], taxonomies := [] }
    { first_name := some "Jane", last_name := some "Doe", organization_name := none }
    "Jane" "Doe" rfl rfl rfl rfl

/-- Claim C10 (amended): every dictionary with an `error` key and no
`results` key — the shape of every error dictionary the fetch function
constructs — takes the generic warning branch, so the error-reason
branch is unreachable for the fetch function's own error results
(non-200 and exception outcomes); it is not unreachable for arbitrary
200 bodies. -/
theorem render_guard_order (d : RespDict)
    (h1 : d.error ≠ none) (h2 : d.results = none) :
    render_provider_results d = RenderOutcome.warnNoResults
    ∧ (∀ status body, status ≠ 200 →
        render_provider_results (fetch_providers_by_specialty
          (HttpOutcome.response status body)) = RenderOutcome.warnNoResults)
    ∧ (∀ e, render_provider_results (fetch_providers_by_specialty (HttpOutcome.exc e))
        = RenderOutcome.warnNoResults) := by
  refine ⟨?_, fun status body h => ?_, fun e => ?_⟩
  · simp [render_provider_results, h2]
  · simp [fetch_providers_by_specialty, h, render_provider_results, errorDict]
  · simp [fetch_providers_by_specialty, render_provider_results, errorDict]

/-- Witness for the amended C10 claim at a concrete error dictionary
and a concrete transport exception. -/
theorem render_guard_order_witness :
    render_provider_results (errorDict "boom") = RenderOutcome.warnNoResults
    ∧ render_provider_results (fetch_providers_by_specialty (HttpOutcome.exc "down"))
      = RenderOutcome.warnNoResults :=
  ⟨(render_guard_order (errorDict "boom") (by simp [errorDict]) rfl).1,
   (render_guard_order (errorDict "boom") (by simp [errorDict]) rfl).2.2 "down"⟩

/-- Counterexample to claim C10 as stated: a 200 response whose JSON
body carries both an `error` and a `results` key is an output of the
fetch function that does reach the error-reason branch. -/
theorem render_error_branch_reachable :
    render_provider_results (fetch_providers_by_specialty (HttpOutcome.response 200
        { error := some "boom", results := some [], result_count := some 1 }))
      = RenderOutcome.errorMsg "Error fetching providers: boom" := rfl

/-- Claim C1 (amended): every exception in the predict handler is
caught at the action boundary and surfaced as an error message, and the
three fields written late (specialty, taxonomy, probabilities) always
retain their prior values; but the handler is not atomic: either the
whole state is unchanged (encoding or prediction failed), or
`last_prediction` and `show_providers` were already overwritten with
the new prediction before the failure (probability extraction failed). -/
theorem predictAction_error_boundary (m : Model) (mapping : SpecialtyMapping)
    (selected all_feats : List String) (s r : SessionState) (msg : String)
    (h : predictAction m mapping selected all_feats s = (r, some msg)) :
    r.recommended_specialty = s.recommended_specialty
    ∧ r.taxonomy_code = s.taxonomy_code
    ∧ r.prediction_probs = s.prediction_probs
    ∧ (r = s
       ∨ ∃ X y, one_hot selected all_feats = Except.ok X
           ∧ m.predict X = Except.ok y
           ∧ r.last_prediction = some y ∧ r.show_providers = false) := by
  cases h1 : one_hot selected all_feats with
  | error e =>
    simp only [predictAction, h1, Prod.mk.injEq] at h
    obtain ⟨rfl, -⟩ := h
    exact ⟨rfl, rfl, rfl, Or.inl rfl⟩
  | ok X =>
    cases h2 : m.predict X with
    | error e =>
      simp only [predictAction, h1, h2, Prod.mk.injEq] at h
      obtain ⟨rfl, -⟩ := h
      exact ⟨rfl, rfl, rfl, Or.inl rfl⟩
    | ok y =>
      cases h3 : m.predict_proba with
      | none => simp [predictAction, h1, h2, h3] at h
      | some pp =>
        cases h4 : pp X with
        | ok probs => simp [predictAction, h1, h2, h3, h4] at h
        | error e =>
          simp only [predictAction, h1, h2, h3, h4, Prod.mk.injEq] at h
          obtain ⟨hr, -⟩ := h
          subst hr
          exact ⟨rfl, rfl, rfl, Or.inr ⟨X, y, rfl, h2, rfl, rfl⟩⟩

/-- Witness for the amended C1 claim: concrete handler run in which
`predict_proba` raises after `predict` succeeded. -/
theorem predictAction_error_boundary_witness :
    rC1.recommended_specialty = sC1.recommended_specialty
    ∧ rC1.taxonomy_code = sC1.taxonomy_code
    ∧ rC1.prediction_probs = sC1.prediction_probs
    ∧ (rC1 = sC1
       ∨ ∃ X y, one_hot ["f"] ["f"] = Except.ok X
           ∧ mC1.predict X = Except.ok y
           ∧ rC1.last_prediction = some y ∧ rC1.show_providers = false) :=
  predictAction_error_boundary mC1 [] ["f"] ["f"] sC1 rC1 "Prediction failed: boom" rfl

/-- Counterexample to claim C1 as stated: the exception is caught and
shown, yet `last_prediction` and `show_providers` do not retain their
prior values — they were overwritten before `predict_proba` raised. -/
theorem predictAction_not_atomic :
    (predictAction mC1 [] ["f"] ["f"] sC1).2 = some "Prediction failed: boom"
    ∧ (predictAction mC1 [] ["f"] ["f"] sC1).1.last_prediction ≠ sC1.last_prediction
    ∧ (predictAction mC1 [] ["f"] ["f"] sC1).1.show_providers ≠ sC1.show_providers :=
  ⟨rfl, by decide, by decide⟩

/-- Claim C4 (amended): a successful predict action with at least one
symptom selected always overwrites `last_prediction`, resets
`show_providers`, and overwrites `prediction_probs` whenever the
classifier supports probabilities; `recommended_specialty` and
`taxonomy_code` are overwritten only when the new label resolves in the
mapping, and otherwise retain their prior values. -/
theorem predictClick_success_overwrites (m : Model) (mapping : SpecialtyMapping)
    (selected all_feats : List String) (s r : SessionState)
    (hsel : selected ≠ [])
    (h : predictClick m mapping selected all_feats s = (r, none)) :
    ∃ X y, one_hot selected all_feats = Except.ok X
      ∧ m.predict X = Except.ok y
      ∧ r.last_prediction = some y
      ∧ r.show_providers = false
      ∧ (∀ pp, m.predict_proba = some pp →
          ∃ probs, pp X = Except.ok probs
            ∧ r.prediction_probs = some { probs := probs, tops := top_idx probs })
      ∧ (m.predict_proba = none → r.prediction_probs = s.prediction_probs)
      ∧ (∀ info, getInfo mapping y = some info →
          r.recommended_specialty = some (specOf info)
            ∧ r.taxonomy_code = some (taxOf info))
      ∧ (getInfo mapping y = none →
          r.recommended_specialty = s.recommended_specialty
            ∧ r.taxonomy_code = s.taxonomy_code) := by
  rw [predictClick, if_neg (by simpa using hsel)] at h
  cases h1 : one_hot selected all_feats with
  | error e => simp [predictAction, h1] at h
  | ok X =>
    cases h2 : m.predict X with
    | error e => simp [predictAction, h1, h2] at h
    | ok y =>
      cases h3 : m.predict_proba with
      | none =>
        simp only [predictAction, h1, h2, h3, Prod.mk.injEq] at h
        obtain ⟨hr, -⟩ := h
        subst hr
        refine ⟨X, y, rfl, h2, ?_, ?_, ?_, ?_, ?_, ?_⟩
        · cases h5 : getInfo mapping y <;> simp [applySpecialty, h5]
        · cases h5 : getInfo mapping y <;> simp [applySpecialty, h5]
        · intro pp hpp
          exact Option.noConfusion hpp
        · intro _
          cases h5 : getInfo mapping y <;> simp [applySpecialty, h5]
        · intro info h5
          simp [applySpecialty, h5]
        · intro h5
          simp [applySpecialty, h5]
      | some pp =>
        cases h4 : pp X with
        | error e => simp [predictAction, h1, h2, h3, h4] at h
        | ok probs =>
          simp only [predictAction, h1, h2, h3, h4, Prod.mk.injEq] at h
          obtain ⟨hr, -⟩ := h
          subst hr
          refine ⟨X, y, rfl, h2, ?_, ?_, ?_, ?_, ?_, ?_⟩
          · cases h5 : getInfo mapping y <;> simp [applySpecialty, h5]
          · cases h5 : getInfo mapping y <;> simp [applySpecialty, h5]
          · intro pp' hpp'
            injection hpp' with he
            subst he
            exact ⟨probs, h4, by cases h5 : getInfo mapping y <;> simp [applySpecialty, h5]⟩
          · intro hnone
            exact Option.noConfusion hnone
          · intro info h5
            simp [applySpecialty, h5]
          · intro h5
            simp [applySpecialty, h5]

/-- Witness for the amended C4 claim: concrete successful run over a
mapping that resolves the new label, overwriting every field. -/
theorem predictClick_success_overwrites_witness :
    ∃ X y, one_hot ["f"] ["f"] = Except.ok X
      ∧ mC4.predict X = Except.ok y
      ∧ rC4.last_prediction = some y
      ∧ rC4.show_providers = false
      ∧ (∀ pp, mC4.predict_proba = some pp →
          ∃ probs, pp X = Except.ok probs
            ∧ rC4.prediction_probs = some { probs := probs, tops := top_idx probs })
      ∧ (mC4.predict_proba = none → rC4.prediction_probs = sC4.prediction_probs)
      ∧ (∀ info, getInfo mapC4 y = some info →
          rC4.recommended_specialty = some (specOf info)
            ∧ rC4.taxonomy_code = some (taxOf info))
      ∧ (getInfo mapC4 y = none →
          rC4.recommended_specialty = sC4.recommended_specialty
            ∧ rC4.taxonomy_code = sC4.taxonomy_code) :=
  predictClick_success_overwrites mC4 mapC4 ["f"] ["f"] sC4 rC4 (by decide) rfl

/-- Counterexample to claim C4 as stated: a successful prediction whose
label misses the (empty) mapping leaves the stale specialty fields of
the previous prediction in place instead of overwriting all five
fields. -/
theorem predictClick_stale_specialty :
    (predictClick mC4 [] ["f"] ["f"] sC4x).2 = none
    ∧ getInfo [] "A" = none
    ∧ (predictClick mC4 [] ["f"] ["f"] sC4x).1.recommended_specialty = some "OldSpec"
    ∧ (predictClick mC4 [] ["f"] ["f"] sC4x).1.taxonomy_code = some "OldTax" :=
  ⟨rfl, rfl, rfl, rfl⟩

lemma mem_insertSorted {probs : List ℚ} {i k : Nat} :
    ∀ {l : List Nat}, k ∈ insertSorted probs i l → k = i ∨ k ∈ l := by
  intro l
  induction l with
  | nil =>
    intro h
    simp only [insertSorted, List.mem_singleton] at h
    exact Or.inl h
  | cons j rest ih =>
    intro h
    rw [insertSorted] at h
    split at h
    · rcases List.mem_cons.mp h with h | h
      · exact Or.inl h
      · exact Or.inr h
    · rcases List.mem_cons.mp h with h | h
      · exact Or.inr (by simp [h])
      · rcases ih h with h | h
        · exact Or.inl h
        · exact Or.inr (List.mem_cons_of_mem _ h)

lemma insertSorted_pairwise {probs : List ℚ} {i : Nat} :
    ∀ {l : List Nat}, l.Pairwise (ordA probs) → (∀ j ∈ l, j < i) →
      (insertSorted probs i l).Pairwise (ordA probs) := by
  intro l
  induction l with
  | nil => intro _ _; simp [insertSorted]
  | cons j rest ih =>
    intro hp hlt
    rcases List.pairwise_cons.mp hp with ⟨hjrest, hprest⟩
    rw [insertSorted]
    split
    · rename_i hij
      refine List.pairwise_cons.mpr ⟨?_, hp⟩
      intro k hk
      rcases List.mem_cons.mp hk with rfl | hk
      · exact Or.inl hij
      · rcases hjrest k hk with hlt2 | ⟨heq, _⟩
        · exact Or.inl (lt_trans hij hlt2)
        · exact Or.inl (heq ▸ hij)
    · rename_i hij
      refine List.pairwise_cons.mpr
        ⟨?_, ih hprest (fun k hk => hlt k (List.mem_cons_of_mem _ hk))⟩
      intro k hk
      rcases mem_insertSorted hk with rfl | hk
      · rcases lt_or_eq_of_le (not_lt.mp hij) with hlt2 | heq
        · exact Or.inl hlt2
        · exact Or.inr ⟨heq, hlt j (List.mem_cons_self j rest)⟩
      · exact hjrest k hk

lemma foldl_insertSorted_pairwise (probs : List ℚ) :
    ∀ (idxs acc : List Nat), acc.Pairwise (ordA probs) →
      (∀ j ∈ acc, ∀ i ∈ idxs, j < i) → idxs.Pairwise (· < ·) →
      (idxs.foldl (fun a i => insertSorted probs i a) acc).Pairwise (ordA probs) := by
  intro idxs
  induction idxs with
  | nil => intro acc hacc _ _; simpa using hacc
  | cons i rest ih =>
    intro acc hacc hlt hidx
    rcases List.pairwise_cons.mp hidx with ⟨hirest, hrest⟩
    rw [List.foldl_cons]
    apply ih
    · exact insertSorted_pairwise hacc
        (fun j hj => hlt j hj i (List.mem_cons_self i rest))
    · intro j hj i2 hi2
      rcases mem_insertSorted hj with rfl | hj
      · exact hirest i2 hi2
      · exact hlt j hj i2 (List.mem_cons_of_mem _ hi2)
    · exact hrest

lemma argsort_pairwise (probs : List ℚ) : (argsort probs).Pairwise (ordA probs) :=
  foldl_insertSorted_pairwise probs (List.range probs.length) []
    List.Pairwise.nil (by simp) (List.pairwise_lt_range _)

lemma top_idx_pairwise (probs : List ℚ) :
    (top_idx probs).Pairwise (fun i j => ordA probs j i) := by
  rw [top_idx, List.pairwise_reverse]
  exact (argsort_pairwise probs).sublist (List.drop_sublist _ _)

/-- Claim C3 (amended): the "other possibilities" list has at most 3
entries, none below probability 0.05, in non-increasing probability
order; it is not tie-broken by the classifier's native class ordering —
within numpy's small-array insertion-sort regime (at most 16 classes,
where argsort is stable) tied entries come out in the REVERSE of the
native ordering, and above that cutoff the default quicksort leaves the
tie order unspecified, so no tie order is asserted there. -/
theorem otherPossibilities_shape (m : Model) (probs : List ℚ) :
    (otherPossibilities m probs).length ≤ 3
    ∧ (∀ x ∈ otherPossibilities m probs, (0.05 : ℚ) ≤ x.2)
    ∧ (otherPossibilities m probs).Pairwise (fun x y => y.2 ≤ x.2)
    ∧ (probs.length ≤ 16 →
        ((top_idx probs).filter (keep probs)).Pairwise
          (fun i j => probs.getD j 0 < probs.getD i 0
            ∨ (probs.getD j 0 = probs.getD i 0 ∧ j < i))) := by
  have hfp : ((top_idx probs).filter (keep probs)).Pairwise (fun i j => ordA probs j i) :=
    (top_idx_pairwise probs).sublist (List.filter_sublist _)
  refine ⟨?_, ?_, ?_, fun _ => hfp⟩
  · have h2 : ((top_idx probs).filter (keep probs)).length ≤ (top_idx probs).length :=
      List.length_filter_le _ _
    have h3 : (top_idx probs).length ≤ 3 := by
      rw [top_idx, List.length_reverse, List.length_drop]
      omega
    simp only [otherPossibilities, List.length_map]
    omega
  · intro x hx
    obtain ⟨i, hi, rfl⟩ := List.mem_map.mp hx
    have hk : keep probs i = true := (List.mem_filter.mp hi).2
    have : ¬ (probs.getD i 0 < 0.05) := by simpa [keep] using hk
    exact not_lt.mp this
  · refine List.Pairwise.map _ ?_ hfp
    intro a b hab
    rcases hab with hlt | ⟨heq, _⟩
    · exact le_of_lt hlt
    · exact le_of_eq heq

/-- Witness for the amended C3 claim at a concrete classifier and
distribution: the threshold clause at a concrete member of the
displayed list, and the tie clause with the small-array bound
discharged at the 3-class distribution. -/
theorem otherPossibilities_shape_witness :
    (otherPossibilities mC3 probsC3).length ≤ 3
    ∧ (0.05 : ℚ) ≤ (("B", (1/2 : ℚ))).2
    ∧ ((top_idx probsC3).filter (keep probsC3)).Pairwise
        (fun i j => probsC3.getD j 0 < probsC3.getD i 0
          ∨ (probsC3.getD j 0 = probsC3.getD i 0 ∧ j < i)) :=
  ⟨(otherPossibilities_shape mC3 probsC3).1,
   (otherPossibilities_shape mC3 probsC3).2.1 ("B", 1/2)
     (by norm_num [otherPossibilities, mC3, top_idx, argsort, probsC3,
       List.range_succ, insertSorted, keep, List.filter]),
   (otherPossibilities_shape mC3 probsC3).2.2.2 (by norm_num [probsC3])⟩

/-- Counterexample to claim C3 as stated: with a probability tie between
classes 0 and 1, the displayed list orders the tied entries in reverse
native order ("B" before "A"), violating the claimed tie-breaking. -/
theorem otherPossibilities_tie_counterexample :
    otherPossibilities mC3 probsC3 = [("B", 1/2), ("A", 1/2)]
    ∧ ¬ ((top_idx probsC3).filter (keep probsC3)).Pairwise
        (fun i j => probsC3.getD j 0 < probsC3.getD i 0
          ∨ (probsC3.getD i 0 = probsC3.getD j 0 ∧ i < j)) := by
  constructor
  · norm_num [otherPossibilities, mC3, top_idx, argsort, probsC3, List.range_succ,
      insertSorted, keep, List.filter]
  · norm_num [top_idx, argsort, probsC3, List.range_succ, insertSorted, keep,
      List.filter, List.pairwise_cons]

end HealthcareSearch
